import Mathlib

/-!
Shallow embedding of the transactional database wrapper in
`src/sqlitecluster/SQLite.cpp` (the `SQLite` class), together with proofs
about its transaction, journal, query-cache, authorizer and interrupt logic.

Engine calls (`SQuery`, `sqlite3_*`) are external to the repository; their
outcomes enter the model as explicit parameters (success flags, result sets,
authorizer callback traces), and every engine statement the wrapper issues is
recorded in an `executedQueries` log.  The SHA1/hex helpers (`SHashSHA1`,
`SToHex` from libstuff) are likewise external, so journal-hash theorems are
stated for an arbitrary hash function `H : String → String`.  The shared
commit lock is modelled by a `commitLockHeld` flag plus a `commitLockReleases`
counter that is incremented exactly where the source calls
`_sharedData.commitLock.unlock()`.
-/

namespace SQLite

/-- Result of a query: a list of rows, each a list of column strings (models `SQResult`). -/
abbrev SQResult := List (List String)

/-- sqlite3 authorizer return code `SQLITE_OK`. -/
def SQLITE_OK : Nat := 0

/-- sqlite3 authorizer return code `SQLITE_DENY`. -/
def SQLITE_DENY : Nat := 1

/-- sqlite3 authorizer return code `SQLITE_IGNORE`. -/
def SQLITE_IGNORE : Nat := 2

/-- sqlite3 result code `SQLITE_AUTH` (23). -/
def SQLITE_AUTH : Nat := 23

/-- sqlite3 extended result code `SQLITE_BUSY_SNAPSHOT` (5 | 2 << 8 = 517). -/
def SQLITE_BUSY_SNAPSHOT : Nat := 517

/-- sqlite3 authorizer action code `SQLITE_COPY`. -/
def SQLITE_COPY : Nat := 0

/-- sqlite3 authorizer action code `SQLITE_CREATE_INDEX`. -/
def SQLITE_CREATE_INDEX : Nat := 1

/-- sqlite3 authorizer action code `SQLITE_CREATE_TABLE`. -/
def SQLITE_CREATE_TABLE : Nat := 2

/-- sqlite3 authorizer action code `SQLITE_CREATE_TEMP_INDEX`. -/
def SQLITE_CREATE_TEMP_INDEX : Nat := 3

/-- sqlite3 authorizer action code `SQLITE_CREATE_TEMP_TABLE`. -/
def SQLITE_CREATE_TEMP_TABLE : Nat := 4

/-- sqlite3 authorizer action code `SQLITE_CREATE_TEMP_TRIGGER`. -/
def SQLITE_CREATE_TEMP_TRIGGER : Nat := 5

/-- sqlite3 authorizer action code `SQLITE_CREATE_TEMP_VIEW`. -/
def SQLITE_CREATE_TEMP_VIEW : Nat := 6

/-- sqlite3 authorizer action code `SQLITE_CREATE_TRIGGER`. -/
def SQLITE_CREATE_TRIGGER : Nat := 7

/-- sqlite3 authorizer action code `SQLITE_CREATE_VIEW`. -/
def SQLITE_CREATE_VIEW : Nat := 8

/-- sqlite3 authorizer action code `SQLITE_DELETE`. -/
def SQLITE_DELETE : Nat := 9

/-- sqlite3 authorizer action code `SQLITE_DROP_INDEX`. -/
def SQLITE_DROP_INDEX : Nat := 10

/-- sqlite3 authorizer action code `SQLITE_DROP_TABLE`. -/
def SQLITE_DROP_TABLE : Nat := 11

/-- sqlite3 authorizer action code `SQLITE_DROP_TEMP_INDEX`. -/
def SQLITE_DROP_TEMP_INDEX : Nat := 12

/-- sqlite3 authorizer action code `SQLITE_DROP_TEMP_TABLE`. -/
def SQLITE_DROP_TEMP_TABLE : Nat := 13

/-- sqlite3 authorizer action code `SQLITE_DROP_TEMP_TRIGGER`. -/
def SQLITE_DROP_TEMP_TRIGGER : Nat := 14

/-- sqlite3 authorizer action code `SQLITE_DROP_TEMP_VIEW`. -/
def SQLITE_DROP_TEMP_VIEW : Nat := 15

/-- sqlite3 authorizer action code `SQLITE_DROP_TRIGGER`. -/
def SQLITE_DROP_TRIGGER : Nat := 16

/-- sqlite3 authorizer action code `SQLITE_DROP_VIEW`. -/
def SQLITE_DROP_VIEW : Nat := 17

/-- sqlite3 authorizer action code `SQLITE_INSERT`. -/
def SQLITE_INSERT : Nat := 18

/-- sqlite3 authorizer action code `SQLITE_PRAGMA`. -/
def SQLITE_PRAGMA : Nat := 19

/-- sqlite3 authorizer action code `SQLITE_READ`. -/
def SQLITE_READ : Nat := 20

/-- sqlite3 authorizer action code `SQLITE_SELECT`. -/
def SQLITE_SELECT : Nat := 21

/-- sqlite3 authorizer action code `SQLITE_TRANSACTION`. -/
def SQLITE_TRANSACTION : Nat := 22

/-- sqlite3 authorizer action code `SQLITE_UPDATE`. -/
def SQLITE_UPDATE : Nat := 23

/-- sqlite3 authorizer action code `SQLITE_ATTACH`. -/
def SQLITE_ATTACH : Nat := 24

/-- sqlite3 authorizer action code `SQLITE_DETACH`. -/
def SQLITE_DETACH : Nat := 25

/-- sqlite3 authorizer action code `SQLITE_ALTER_TABLE`. -/
def SQLITE_ALTER_TABLE : Nat := 26

/-- sqlite3 authorizer action code `SQLITE_REINDEX`. -/
def SQLITE_REINDEX : Nat := 27

/-- sqlite3 authorizer action code `SQLITE_ANALYZE`. -/
def SQLITE_ANALYZE : Nat := 28

/-- sqlite3 authorizer action code `SQLITE_CREATE_VTABLE`. -/
def SQLITE_CREATE_VTABLE : Nat := 29

/-- sqlite3 authorizer action code `SQLITE_DROP_VTABLE`. -/
def SQLITE_DROP_VTABLE : Nat := 30

/-- sqlite3 authorizer action code `SQLITE_FUNCTION`. -/
def SQLITE_FUNCTION : Nat := 31

/-- sqlite3 authorizer action code `SQLITE_SAVEPOINT`. -/
def SQLITE_SAVEPOINT : Nat := 32

/-- sqlite3 authorizer action code `SQLITE_RECURSIVE`. -/
def SQLITE_RECURSIVE : Nat := 33

/-- Models libstuff `SEndsWith(haystack, needle)`. -/
def SEndsWith (haystack needle : String) : Bool :=
  needle.data.isSuffixOf haystack.data

/-- Models libstuff `SToLower` (ASCII lowercasing). -/
def SToLower (s : String) : String := s.toLower

/-- First-match association lookup; models `std::map::find` on an association list. -/
def assocFind {κ α : Type} [BEq κ] (l : List (κ × α)) (key : κ) : Option α :=
  match l.find? (fun p => p.1 == key) with
  | some p => some p.2
  | none => none

/-- Models `std::map::insert_or_assign`. -/
def assocSet {κ α : Type} [BEq κ] (l : List (κ × α)) (key : κ) (v : α) : List (κ × α) :=
  (l.filter (fun p => !(p.1 == key))) ++ [(key, v)]

/-- A row of a journal table: `(id INTEGER PRIMARY KEY, query TEXT, hash TEXT)`. -/
structure JournalRow where
  id : Nat
  query : String
  hash : String
  deriving DecidableEq

/-- Errors thrown by `_checkInterruptErrors` (`timeout_error` with elapsed
microseconds, and `checkpoint_required_error`). -/
inductive SQLiteError where
  | timeout (elapsedUS : Nat)
  | checkpointRequired
  deriving DecidableEq

/-- Transaction type argument of `SQLite::beginTransaction`. -/
inductive TransactionType where
  | SHARED
  | EXCLUSIVE
  deriving DecidableEq

/-- Combined state of one `SQLite` connection and its `SharedData`
(single-connection sequential traces; the fields keep their source names).
`commitLockHeld`/`commitLockReleases` instrument `_sharedData.commitLock`:
`lock()` sets the flag, `unlock()` clears it and bumps the counter.
`journal` is the content of the connection's assigned journal table;
`journalAtBegin` is the snapshot taken at `BEGIN CONCURRENT`, to model that
uncommitted journal inserts/deletes vanish again on rollback.
`executedQueries` logs every statement handed to the engine. -/
structure State where
  commitCount : Nat
  lastCommittedHash : String
  commitLockHeld : Bool
  commitLockReleases : Nat
  _insideTransaction : Bool
  _mutexLocked : Bool
  _autoRolledBack : Bool
  _abandonForCheckpoint : Bool
  _enableCheckpointInterrupt : Bool
  _noopUpdateMode : Bool
  _enableRewrite : Bool
  _currentlyRunningRewritten : Bool
  _rewrittenQuery : String
  _rewriteHandler : Nat → Option String → Option String
  whitelist : Option (List (String × List String))
  _isDeterministicQuery : Bool
  _uncommittedQuery : String
  _uncommittedHash : String
  _queryCache : List (String × SQResult)
  _queryCount : Nat
  _cacheHits : Nat
  _timeoutStart : Nat
  _timeoutLimit : Nat
  _timeoutError : Nat
  _dbCountAtStart : Nat
  journal : List JournalRow
  journalAtBegin : List JournalRow
  _journalSize : Nat
  _maxJournalSize : Nat
  executedQueries : List String
  _preparedTransactions : List (Nat × (String × String × Nat))
  _committedTransactions : List (Nat × (String × String × Nat))

/-- The non-deterministic function names checked in `SQLite::_authorize`
(SQLite.cpp lines 944-957).  Note the source literally compares against
`"sqlite3_version"`, not `"sqlite_version"`. -/
def nonDeterministicFunctions : List String :=
  ["random", "date", "time", "datetime", "julianday", "strftime",
   "changes", "last_insert_rowid", "sqlite3_version"]

/-- The action codes that fall into the always-`SQLITE_DENY` block of the
whitelist switch in `SQLite::_authorize` (SQLite.cpp lines 966-996). -/
def alwaysDeniedActionCodes : List Nat :=
  [SQLITE_CREATE_INDEX, SQLITE_CREATE_TABLE, SQLITE_CREATE_TEMP_INDEX,
   SQLITE_CREATE_TEMP_TABLE, SQLITE_CREATE_TEMP_TRIGGER, SQLITE_CREATE_TEMP_VIEW,
   SQLITE_CREATE_TRIGGER, SQLITE_CREATE_VIEW, SQLITE_DELETE, SQLITE_DROP_INDEX,
   SQLITE_DROP_TABLE, SQLITE_DROP_TEMP_INDEX, SQLITE_DROP_TEMP_TABLE,
   SQLITE_DROP_TEMP_TRIGGER, SQLITE_DROP_TEMP_VIEW, SQLITE_DROP_TRIGGER,
   SQLITE_DROP_VIEW, SQLITE_INSERT, SQLITE_TRANSACTION, SQLITE_UPDATE,
   SQLITE_ATTACH, SQLITE_DETACH, SQLITE_ALTER_TABLE, SQLITE_REINDEX,
   SQLITE_CREATE_VTABLE, SQLITE_DROP_VTABLE, SQLITE_SAVEPOINT, SQLITE_COPY,
   SQLITE_RECURSIVE]

/-- The whitelist-mode verdict of the `switch (actionCode)` statement in
`SQLite::_authorize` (SQLite.cpp lines 964-1037), including the final
default `return SQLITE_DENY`. -/
def whitelistVerdict (wl : List (String × List String)) (actionCode : Nat)
    (detail1 detail2 : Option String) : Nat :=
  if actionCode ∈ alwaysDeniedActionCodes then SQLITE_DENY
  else if actionCode = SQLITE_SELECT ∨ actionCode = SQLITE_ANALYZE ∨ actionCode = SQLITE_FUNCTION then
    SQLITE_OK
  else if actionCode = SQLITE_PRAGMA then
    if SToLower (detail1.getD "") = "schema_version" ∧ detail2 = none then SQLITE_OK
    else SQLITE_DENY
  else if actionCode = SQLITE_READ then
    match assocFind wl (detail1.getD "") with
    | some columns => if (detail2.getD "") ∈ columns then SQLITE_OK else SQLITE_IGNORE
    | none => SQLITE_IGNORE
  else SQLITE_DENY

/-- Models `SQLite::_authorize` (SQLite.cpp lines 936-1038).  The rewrite
handler returning `some q` models the registered handler returning `true`
after storing `q` in `_rewrittenQuery`. -/
def _authorize (st : State) (actionCode : Nat) (detail1 detail2 : Option String) :
    Nat × State :=
  match (if st._enableRewrite && !st._currentlyRunningRewritten
         then st._rewriteHandler actionCode detail1 else none) with
  | some rewritten => (SQLITE_DENY, { st with _rewrittenQuery := rewritten })
  | none =>
    let st1 :=
      if actionCode = SQLITE_FUNCTION then
        match detail2 with
        | some functionName =>
          if functionName ∈ nonDeterministicFunctions then
            { st with _isDeterministicQuery := false }
          else st
        | none => st
      else st
    match st1.whitelist with
    | none => (SQLITE_OK, st1)
    | some wl => (whitelistVerdict wl actionCode detail1 detail2, st1)

/-- Models `SQLite::resetTiming` (SQLite.cpp lines 1046-1050). -/
def resetTiming (st : State) : State :=
  { st with _timeoutLimit := 0, _timeoutStart := 0, _timeoutError := 0 }

/-- Models `SQLite::_checkInterruptErrors` (SQLite.cpp lines 511-553).
`now` models `STimeNow()`, `autocommit` models `sqlite3_get_autocommit(_db)`.
Returns the thrown error (if any) paired with the mutated state.  Note that
a set `_abandonForCheckpoint` overwrites `errorCode` even when a timeout was
detected first. -/
def _checkInterruptErrors (st : State) (now : Nat) (autocommit : Bool) :
    Option SQLiteError × State :=
  let te := if now > st._timeoutLimit then now - st._timeoutStart else st._timeoutError
  let st1 :=
    if st._timeoutLimit ≠ 0 ∧ te ≠ 0 then resetTiming st
    else if st._timeoutLimit ≠ 0 then { st with _timeoutError := te } else st
  let errorCode : Nat :=
    if st._abandonForCheckpoint then 2
    else if st._timeoutLimit ≠ 0 ∧ te ≠ 0 then 1 else 0
  let st2 :=
    if errorCode ≠ 0 ∧ st1._insideTransaction = true ∧ autocommit = true then
      { st1 with _autoRolledBack := true }
    else st1
  let st3 := { st2 with _abandonForCheckpoint := false }
  if errorCode = 1 then (some (SQLiteError.timeout te), st3)
  else if errorCode = 2 then (some SQLiteError.checkpointRequired, st3)
  else (none, st3)

/-- Engine outcome of one authorizer callback during a read: the action code
and the `detail1`/`detail2` strings the engine passed. -/
structure AuthEvent where
  actionCode : Nat
  detail1 : Option String
  detail2 : Option String

/-- Engine outcome of executing a read query: whether `SQuery` succeeded, the
result set it produced, and the trace of authorizer callbacks it triggered. -/
structure ReadResp where
  success : Bool
  result : SQResult
  authEvents : List AuthEvent

/-- The engine invoking `_authorize` once per parsed action while executing a
query (threading the connection state through the callbacks). -/
def authFold (events : List AuthEvent) (st : State) : State :=
  events.foldl (fun s e => (_authorize s e.actionCode e.detail1 e.detail2).2) st

/-- Models `SQLite::read(query, result)` (SQLite.cpp lines 492-509).  Returns
`Except.error e` when `_checkInterruptErrors` throws `e`, otherwise
`Except.ok (queryResult, result)`. -/
def read (st : State) (query : String) (resp : ReadResp) (now : Nat) (autocommit : Bool) :
    Except SQLiteError (Bool × SQResult) × State :=
  let st0 := { st with _queryCount := st._queryCount + 1 }
  match assocFind st0._queryCache query with
  | some cached => (Except.ok (true, cached), { st0 with _cacheHits := st0._cacheHits + 1 })
  | none =>
    let st1 := { st0 with _isDeterministicQuery := true,
                          executedQueries := st0.executedQueries ++ [query] }
    let st2 := authFold resp.authEvents st1
    let st3 :=
      if st2._isDeterministicQuery && resp.success then
        { st2 with _queryCache := st2._queryCache ++ [(query, resp.result)] }
      else st2
    let checked := _checkInterruptErrors st3 now autocommit
    match checked.1 with
    | some e => (Except.error e, checked.2)
    | none => (Except.ok (resp.success, resp.result), checked.2)

/-- Engine outcome of executing a write query: the `SQuery` result code for
the original query (`0` = success, `SQLITE_AUTH` = rewrite trigger), whether
the rewritten query (if run) succeeded, and whether `PRAGMA schema_version` /
`sqlite3_total_changes` advanced across the execution. -/
structure WriteResp where
  resultCode : Nat
  rewriteSuccess : Bool
  schemaChanged : Bool
  rowsChanged : Bool

/-- Tail of `SQLite::_writeIdempotent` after the engine execution: the
`_checkInterruptErrors` call and the conditional append to
`_uncommittedQuery` (SQLite.cpp lines 606-622). -/
def _writeIdempotentTail (st : State) (result : Bool) (usedRewrittenQuery : Bool)
    (query : String) (resp : WriteResp) (alwaysKeepQueries : Bool)
    (now : Nat) (autocommit : Bool) : Option (Except SQLiteError Bool × State) :=
  let checked := _checkInterruptErrors st now autocommit
  match checked.1 with
  | some e => some (Except.error e, checked.2)
  | none =>
    if !result then some (Except.ok false, checked.2)
    else
      let st3 :=
        if alwaysKeepQueries || resp.schemaChanged || resp.rowsChanged then
          { checked.2 with _uncommittedQuery :=
              checked.2._uncommittedQuery ++
                (if usedRewrittenQuery then checked.2._rewrittenQuery else query) }
        else checked.2
      some (Except.ok true, st3)

/-- Models `SQLite::_writeIdempotent` (SQLite.cpp lines 573-623).  `none`
models an `SASSERT` failure (process abort). -/
def _writeIdempotent (st : State) (query : String) (resp : WriteResp)
    (alwaysKeepQueries : Bool) (now : Nat) (autocommit : Bool) :
    Option (Except SQLiteError Bool × State) :=
  if !st._insideTransaction then none
  else
    let st0 := { st with _queryCache := [], _queryCount := st._queryCount + 1 }
    if !(query == "" || SEndsWith query ";") then none
    else
      if st0._enableRewrite && (resp.resultCode == SQLITE_AUTH) then
        if !(SEndsWith st0._rewrittenQuery ";") then none
        else
          let st1 := { st0 with _currentlyRunningRewritten := false,
                                executedQueries :=
                                  st0.executedQueries ++ [query, st0._rewrittenQuery] }
          _writeIdempotentTail st1 resp.rewriteSuccess true query resp alwaysKeepQueries now autocommit
      else
        let st1 := { st0 with executedQueries := st0.executedQueries ++ [query] }
        _writeIdempotentTail st1 (resp.resultCode == 0) false query resp alwaysKeepQueries now autocommit

/-- Models `SQLite::write` (SQLite.cpp lines 555-563): in `_noopUpdateMode`
it logs loudly and returns `true` without executing anything. -/
def write (st : State) (query : String) (resp : WriteResp) (now : Nat) (autocommit : Bool) :
    Option (Except SQLiteError Bool × State) :=
  if st._noopUpdateMode then some (Except.ok true, st)
  else _writeIdempotent st query resp false now autocommit

/-- Models `SQLite::beginTransaction` (SQLite.cpp lines 370-410).
`beginSuccess` is the engine outcome of `BEGIN CONCURRENT`; `none` models an
`SASSERT` failure. -/
def beginTransaction (st : State) (type : TransactionType) (beginSuccess : Bool) :
    Option State :=
  let stL :=
    match type with
    | TransactionType.EXCLUSIVE => { st with commitLockHeld := true, _mutexLocked := true }
    | TransactionType.SHARED => st
  if stL._insideTransaction then none
  else if stL._uncommittedHash ≠ "" then none
  else if stL._uncommittedQuery ≠ "" then none
  else some { stL with
    _abandonForCheckpoint := false,
    _autoRolledBack := false,
    executedQueries := stL.executedQueries ++ ["BEGIN CONCURRENT"],
    _insideTransaction := beginSuccess,
    journalAtBegin := stL.journal,
    _dbCountAtStart := stL.commitCount,
    _queryCache := [],
    _queryCount := 0,
    _cacheHits := 0 }

/-- Models `SQLite::SharedData::prepareTransactionInfo` (SQLite.cpp lines 1127-1130). -/
def prepareTransactionInfo (st : State) (commitID : Nat) (query hash : String)
    (dbCountAtTransactionStart : Nat) : State :=
  { st with _preparedTransactions :=
      assocSet st._preparedTransactions commitID (query, hash, dbCountAtTransactionStart) }

/-- Models `SQLite::SharedData::commitTransactionInfo` (SQLite.cpp lines 1132-1135). -/
def commitTransactionInfo (st : State) (commitID : Nat) : State :=
  match assocFind st._preparedTransactions commitID with
  | some v =>
    { st with
      _preparedTransactions := st._preparedTransactions.filter (fun p => !(p.1 == commitID)),
      _committedTransactions := st._committedTransactions ++ [(commitID, v)] }
  | none => st

/-- Models `SQLite::SharedData::incrementCommit` (SQLite.cpp lines 1120-1125). -/
def incrementCommit (st : State) (commitHash : String) : State :=
  let stc := { st with commitCount := st.commitCount + 1 }
  let stc2 := commitTransactionInfo stc stc.commitCount
  { stc2 with lastCommittedHash := commitHash }

/-- Models `SQLite::rollback` (SQLite.cpp lines 794-849).  Restoring
`journalAtBegin` models the engine rolling back the uncommitted journal
insert/delete statements. -/
def rollback (st : State) : State :=
  let st1 :=
    if st._insideTransaction then
      let stA :=
        if st._autoRolledBack then
          { st with _autoRolledBack := false, journal := st.journalAtBegin }
        else
          { st with executedQueries := st.executedQueries ++ ["ROLLBACK"],
                    journal := st.journalAtBegin }
      let stB := { stA with _insideTransaction := false,
                            _uncommittedHash := "",
                            _uncommittedQuery := "" }
      if stB._mutexLocked then
        { stB with _mutexLocked := false,
                   commitLockHeld := false,
                   commitLockReleases := stB.commitLockReleases + 1 }
      else stB
    else st
  { st1 with _queryCache := [],
             _queryCount := 0,
             _cacheHits := 0,
             _dbCountAtStart := 0,
             _enableCheckpointInterrupt := true }

/-- Models `SQLite::prepare` (SQLite.cpp lines 625-665).  `H` stands for
`SToHex(SHashSHA1(·))` (libstuff, external to the repository); `insertOk` is
the engine outcome of the `INSERT INTO <journal>` statement.  `none` models
an `SASSERT` failure. -/
def prepare (H : String → String) (st : State) (insertOk : Bool) :
    Option (Bool × State) :=
  if !st._insideTransaction then none
  else
    let st0 :=
      if !st._mutexLocked then { st with commitLockHeld := true, _mutexLocked := true }
      else st
    let commitCount := st0.commitCount
    let lastCommittedHash := st0.lastCommittedHash
    let uncommittedHash := H (lastCommittedHash ++ st0._uncommittedQuery)
    let st1 := { st0 with _uncommittedHash := uncommittedHash }
    let st2 := prepareTransactionInfo st1 (commitCount + 1) st1._uncommittedQuery
      uncommittedHash st1._dbCountAtStart
    if insertOk then
      some (true, { st2 with
        journal := st2.journal ++ [⟨commitCount + 1, st2._uncommittedQuery, uncommittedHash⟩],
        executedQueries := st2.executedQueries ++ ["INSERT INTO journal"] })
    else
      some (false, rollback { st2 with
        executedQueries := st2.executedQueries ++ ["INSERT INTO journal"] })

/-- Deletes rows with `id < cutoff`, at most `limit` of them, scanning in
table order: models `DELETE FROM <journal> WHERE id < ... LIMIT 10`. -/
def deleteLimit (rows : List JournalRow) (cutoff : Nat) (limit : Nat) : List JournalRow :=
  match limit, rows with
  | 0, rest => rest
  | _, [] => []
  | l + 1, r :: rest =>
    if r.id < cutoff then deleteLimit rest cutoff l
    else r :: deleteLimit rest cutoff (l + 1)

/-- Journal truncation step of `SQLite::commit` (SQLite.cpp lines 673-692):
delete up to 10 rows below `MAX(id) - maxJournalSize` and recompute the
journal size as `MAX(id) - MIN(id)`. -/
def trimJournal (rows : List JournalRow) (maxJournalSize : Nat) : List JournalRow × Nat :=
  let maxId := (rows.map (fun r => r.id)).foldl max 0
  let rows2 := deleteLimit rows (maxId - maxJournalSize) 10
  let ids := rows2.map (fun r => r.id)
  let minId := ids.foldl min (ids.headD 0)
  let maxId2 := ids.foldl max 0
  (rows2, maxId2 - minId)

/-- Models `SQLite::commit` (SQLite.cpp lines 667-788).  `conflict` is the
engine outcome of `COMMIT` (`true` = `SQLITE_BUSY_SNAPSHOT`); `none` models
an `SASSERT` failure.  On conflict the trim statements stay uncommitted, so
the modelled journal is left untouched (they are undone by the forced
`rollback`). -/
def commit (st : State) (conflict : Bool) : Option (Nat × State) :=
  if !st._insideTransaction then none
  else if st._uncommittedHash = "" then none
  else
    let trimmed :=
      if st._journalSize + 1 > st._maxJournalSize then trimJournal st.journal st._maxJournalSize
      else (st.journal, st._journalSize + 1)
    let stq := { st with executedQueries := st.executedQueries ++ ["COMMIT"] }
    if conflict then
      some (SQLITE_BUSY_SNAPSHOT, { stq with _enableCheckpointInterrupt := true })
    else
      let st2 := incrementCommit
        { stq with journal := trimmed.1, _journalSize := trimmed.2 } st._uncommittedHash
      some (SQLITE_OK, { st2 with
        _insideTransaction := false,
        _uncommittedHash := "",
        _uncommittedQuery := "",
        _mutexLocked := false,
        commitLockHeld := false,
        commitLockReleases := st.commitLockReleases + 1,
        _queryCache := [],
        _queryCount := 0,
        _cacheHits := 0,
        _dbCountAtStart := 0,
        _enableCheckpointInterrupt := true })

/-- Models `SQLite::getCommittedHash` (SQLite.cpp lines 890-892). -/
def getCommittedHash (st : State) : String := st.lastCommittedHash

/-- Models `SQLite::getCommitCount` (SQLite.cpp lines 912-914). -/
def getCommitCount (st : State) : Nat := st.commitCount

/-- The rows produced by the `UNION` lookup in `SQLite::getCommit`
(SQLite.cpp line 871): all rows with the given id, scanning the journal
tables in order. -/
def journalLookupRows (journals : List (List JournalRow)) (id : Nat) : List JournalRow :=
  (journals.map (fun t => t.filter (fun r => r.id == id))).flatten

/-- Models `SQLite::getCommit` (SQLite.cpp lines 867-888): returns
`(found-with-nonempty-hash, query, hash)` where the outputs are the first
result row, or both empty when there is no result row. -/
def getCommit (journals : List (List JournalRow)) (id : Nat) : Bool × String × String :=
  match journalLookupRows journals id with
  | [] => (false, "", "")
  | r :: _ => (r.hash != "", r.query, r.hash)

/-- Modulus of C++ `uint64_t` arithmetic. -/
def UINT64_MOD : Nat := 2 ^ 64

/-- The journal index computed by the copy constructor (SQLite.cpp line 208):
`(_sharedData.nextJournalCount++ % _journalNames.size() - 1) + 1`, i.e.
`((c % N) - 1) + 1` evaluated in `uint64_t` arithmetic. -/
def copyConstructorJournalIndex (nextJournalCount numJournals : Nat) : Nat :=
  ((nextJournalCount % numJournals + (UINT64_MOD - 1)) % UINT64_MOD + 1) % UINT64_MOD

/-- Modelled from the spec: the index formula the spec states for the copy
constructor, `journalNames[(nextJournalCount++ % (N-1)) + 1]`. -/
def specCopyJournalIndex (nextJournalCount numJournals : Nat) : Nat :=
  nextJournalCount % (numJournals - 1) + 1

/-- Left-pads a number to four digits, as `snprintf(tableName, 27, "journal%04i", n)`. -/
def zeroPad4 (n : Nat) : String :=
  let s := toString n
  String.mk (List.replicate (4 - s.length) '0') ++ s

/-- The `_journalNames` vector discovered by `initializeJournal`
(SQLite.cpp lines 79-118): plain `journal` at index 0, then `journal0000`,
`journal0001`, ... (`stripedCount` striped tables). -/
def journalNames (stripedCount : Nat) : List String :=
  "journal" :: (List.range stripedCount).map (fun i => "journal" ++ zeroPad4 i)

/-- A connection state fresh after construction: no transaction, empty
buffers, empty cache, commit count 0 and empty last-committed hash. -/
def initialState : State where
  commitCount := 0
  lastCommittedHash := ""
  commitLockHeld := false
  commitLockReleases := 0
  _insideTransaction := false
  _mutexLocked := false
  _autoRolledBack := false
  _abandonForCheckpoint := false
  _enableCheckpointInterrupt := true
  _noopUpdateMode := false
  _enableRewrite := false
  _currentlyRunningRewritten := false
  _rewrittenQuery := ""
  _rewriteHandler := fun _ _ => none
  whitelist := none
  _isDeterministicQuery := true
  _uncommittedQuery := ""
  _uncommittedHash := ""
  _queryCache := []
  _queryCount := 0
  _cacheHits := 0
  _timeoutStart := 0
  _timeoutLimit := 0
  _timeoutError := 0
  _dbCountAtStart := 0
  journal := []
  journalAtBegin := []
  _journalSize := 0
  _maxJournalSize := 1000000
  executedQueries := []
  _preparedTransactions := []
  _committedTransactions := []

/-- Engine response of a plain successful write that changed rows. -/
def okWriteResp : WriteResp where
  resultCode := 0
  rewriteSuccess := true
  schemaChanged := false
  rowsChanged := true

/-- One whole successful transaction `beginTransaction(SHARED); write(q);
prepare(); commit()` with an all-success engine, as in the spec's hash-chain
scenario. -/
def commitQuery (H : String → String) (st : State) (q : String) : Option State :=
  match beginTransaction st TransactionType.SHARED true with
  | none => none
  | some st1 =>
    match _writeIdempotent st1 q okWriteResp false 0 false with
    | some (Except.ok true, st2) =>
      (match prepare H st2 true with
       | some (true, st3) =>
         (match commit st3 false with
          | some (0, st4) => some st4
          | _ => none)
       | _ => none)
    | _ => none

/-- Runs a sequence of successful commits with the given queries. -/
def runCommits (H : String → String) (st : State) : List String → Option State
  | [] => some st
  | q :: rest =>
    match commitQuery H st q with
    | none => none
    | some st2 => runCommits H st2 rest

/-- The journal hash chain of the spec: `hash(0) = ""` and
`hash(k) = H(hash(k-1) ++ qk)`. -/
def hashChain (H : String → String) (qs : List String) : String :=
  qs.foldl (fun acc q => H (acc ++ q)) ""

/-- A connection state ready to start the next transaction of a commit
sequence (the configuration `runCommits` preserves). -/
def ReadyState (st : State) : Prop :=
  st._insideTransaction = false ∧ st._mutexLocked = false ∧
  st._uncommittedQuery = "" ∧ st._uncommittedHash = "" ∧
  st._timeoutLimit = 0 ∧ st._timeoutError = 0 ∧
  st._abandonForCheckpoint = false ∧ st._enableRewrite = false

/-- A concrete hash function for witnesses (`SToHex ∘ SHashSHA1` always
produces a non-empty 40-character string; only non-emptiness matters). -/
def constHash : String → String := fun _ => "x"

/-- A connection whose time budget ran out (now = 20 exceeds the limit 10)
while `_abandonForCheckpoint` has been set by the progress handler. -/
def c2State : State :=
  { initialState with _timeoutLimit := 10, _timeoutStart := 5,
                      _abandonForCheckpoint := true }

/-- A connection holding the commit lock with a prepared transaction, about
to call `commit`. -/
def preparedState : State :=
  { initialState with _insideTransaction := true, _mutexLocked := true,
                      commitLockHeld := true,
                      _uncommittedQuery := "UPDATE t SET a=1;",
                      _uncommittedHash := "deadbeef" }

/-- Engine trace of a read that calls the SQL function `sqlite_version()`:
the authorizer observes one FUNCTION action named `sqlite_version`. -/
def respVersion : ReadResp where
  success := true
  result := [["3"]]
  authEvents := [⟨SQLITE_FUNCTION, none, some "sqlite_version"⟩]

/-- Engine trace of a read that calls `random()`. -/
def respRandom : ReadResp where
  success := true
  result := [["4"]]
  authEvents := [⟨SQLITE_FUNCTION, none, some "random"⟩]

/-- A connection inside a transaction with one cached query. -/
def cachedState : State :=
  { initialState with _insideTransaction := true,
                      _queryCache := [("SELECT 1;", [["1"]])] }

/-- A connection in noop-update mode inside a transaction. -/
def noopState : State :=
  { initialState with _noopUpdateMode := true, _insideTransaction := true }

/-- A connection with a whitelist allowing only column `col` of table `tbl`. -/
def wlState : State :=
  { initialState with whitelist := some [("tbl", ["col"])] }

/-- A connection that is not inside a transaction but has a non-empty query
cache, a non-zero `_dbCountAtStart` and counted queries. -/
def c9State : State :=
  { initialState with _queryCache := [("SELECT 1;", [["1"]])],
                      _dbCountAtStart := 7, _queryCount := 3, _cacheHits := 2 }

/-- A journal set whose only row for id 1 has an empty hash. -/
def journalsBad : List (List JournalRow) := [[⟨1, "UPDATE t SET a=1;", ""⟩]]

/-- A well-formed journal set: unique ids, non-empty hashes. -/
def journalsGood : List (List JournalRow) :=
  [[⟨1, "a;", "h1"⟩], [⟨2, "b;", "h2"⟩]]

/-! ## Theorems -/

/-- C7: a `write(query)` call while noop-update mode is enabled returns true,
executes no engine query, and leaves the whole connection state (in
particular the database contents and the `_uncommittedQuery` buffer)
unchanged. -/
theorem write_noopUpdateMode_is_noop (st : State) (q : String) (resp : WriteResp)
    (now : Nat) (autocommit : Bool) (h : st._noopUpdateMode = true) :
    write st q resp now autocommit = some (Except.ok true, st) := by
  simp [write, h]

/-- Witness for C7 at a concrete state. -/
theorem write_noopUpdateMode_is_noop_witness :
    noopState._noopUpdateMode = true ∧
    write noopState "UPDATE t SET a=1;" okWriteResp 0 false =
      some (Except.ok true, noopState) :=
  ⟨rfl, write_noopUpdateMode_is_noop noopState "UPDATE t SET a=1;" okWriteResp 0 false rfl⟩

/-- C9 counterexample: `rollback()` while not inside a transaction is not a
complete no-op.  At this concrete state it clears the query cache and resets
the observable `_dbCountAtStart` (returned by `getDBCountAtStart`), so it
does change observable connection state. -/
theorem rollback_outside_transaction_changes_state :
    c9State._insideTransaction = false ∧
    (rollback c9State)._dbCountAtStart ≠ c9State._dbCountAtStart ∧
    (rollback c9State)._queryCache ≠ c9State._queryCache := by
  refine ⟨rfl, ?_, ?_⟩ <;> decide

/-- C9 amended: `rollback()` while not inside a transaction issues no
ROLLBACK and releases no lock, but it does clear the query cache, reset
`_queryCount`, `_cacheHits` and `_dbCountAtStart` to zero, and re-enable
checkpoint interrupts. -/
theorem rollback_outside_transaction (st : State) (h : st._insideTransaction = false) :
    rollback st =
      { st with _queryCache := [], _queryCount := 0, _cacheHits := 0,
                _dbCountAtStart := 0, _enableCheckpointInterrupt := true } := by
  simp [rollback, h]

/-- Witness for the amended C9 at a concrete state. -/
theorem rollback_outside_transaction_witness :
    c9State._insideTransaction = false ∧
    rollback c9State =
      { c9State with _queryCache := [], _queryCount := 0, _cacheHits := 0,
                     _dbCountAtStart := 0, _enableCheckpointInterrupt := true } :=
  ⟨rfl, rollback_outside_transaction c9State rfl⟩

/-- C2: evaluation of `_checkInterruptErrors` at a state where both the time
budget is exceeded (now = 20 > limit = 10) and `_abandonForCheckpoint` is
set.  The code raises `checkpoint_required_error`, not `timeout_error`,
because the `errorCode = 2` assignment overwrites the timeout error code —
contradicting the claim and the source's own comment that the timeout check
should override the others. -/
theorem checkInterruptErrors_checkpoint_overrides_timeout :
    (20 > c2State._timeoutLimit ∧ c2State._timeoutLimit ≠ 0 ∧
     c2State._abandonForCheckpoint = true) ∧
    (_checkInterruptErrors c2State 20 false).1 = some SQLiteError.checkpointRequired := by
  exact ⟨⟨by decide, by decide, rfl⟩, rfl⟩

/-- C5 counterexample: with two journal tables (`journal`, `journal0000`)
and `nextJournalCount = 0`, the copy constructor's index expression
evaluates to 0, assigning the plain reserved `journal` table, while the
spec's formula `(c % (N-1)) + 1` gives 1. -/
theorem copyConstructorJournalIndex_assigns_plain_journal :
    copyConstructorJournalIndex 0 2 = 0 ∧
    specCopyJournalIndex 0 2 = 1 ∧
    (journalNames 1).getD (copyConstructorJournalIndex 0 2) "" = "journal" := by
  refine ⟨?_, ?_, ?_⟩ <;> decide

/-- C5 amended: the copy constructor's index expression
`(nextJournalCount++ % N - 1) + 1` in `uint64_t` arithmetic equals
`nextJournalCount % N` (the unsigned `- 1` and `+ 1` cancel), so the plain
`journal` table at index 0 is assigned whenever the counter is a multiple of
the number of journal tables. -/
theorem copyConstructorJournalIndex_eq_mod (c N : Nat) (h1 : 0 < N)
    (h2 : N ≤ 2 ^ 64) : copyConstructorJournalIndex c N = c % N := by
  have hx : c % N < N := Nat.mod_lt c h1
  have hpow : (2 : Nat) ^ 64 = 18446744073709551616 := by norm_num
  unfold copyConstructorJournalIndex UINT64_MOD
  rw [hpow] at h2 ⊢
  omega

/-- Witness for the amended C5. -/
theorem copyConstructorJournalIndex_eq_mod_witness :
    0 < 3 ∧ 3 ≤ 2 ^ 64 ∧ copyConstructorJournalIndex 7 3 = 7 % 3 :=
  ⟨by decide, by norm_num, copyConstructorJournalIndex_eq_mod 7 3 (by decide) (by norm_num)⟩

/-- Membership in the UNION-lookup result. -/
theorem mem_journalLookupRows {journals : List (List JournalRow)} {id : Nat}
    {r : JournalRow} :
    r ∈ journalLookupRows journals id ↔ ∃ t ∈ journals, r ∈ t ∧ r.id = id := by
  constructor
  · intro hmem
    obtain ⟨l, hl, hrl⟩ := List.mem_flatten.mp hmem
    obtain ⟨t, ht, rfl⟩ := List.mem_map.mp hl
    obtain ⟨hrt, hp⟩ := List.mem_filter.mp hrl
    exact ⟨t, ht, hrt, by simpa using hp⟩
  · rintro ⟨t, ht, hr, hid⟩
    exact List.mem_flatten.mpr ⟨t.filter (fun r => r.id == id),
      List.mem_map.mpr ⟨t, ht, rfl⟩,
      List.mem_filter.mpr ⟨hr, by simpa using hid⟩⟩

/-- C10 counterexample: with a journal containing the single row
`(1, "UPDATE t SET a=1;", "")`, `getCommit 1` returns false but sets the
`query` output to the row's query instead of the empty string. -/
theorem getCommit_false_with_nonempty_query :
    getCommit journalsBad 1 = (false, "UPDATE t SET a=1;", "") ∧
    "UPDATE t SET a=1;" ≠ "" := by
  exact ⟨rfl, by decide⟩

/-- C10 amended: provided ids are unique across all journal rows,
`getCommit id` returns true iff some journal table has a row with that id
and a non-empty hash; when no row with that id exists at all (trimmed rows,
id 0), both outputs are set to the empty string.  (When a row exists but its
hash is empty, the call returns false with `query` set to that row's query.) -/
theorem getCommit_found_iff (journals : List (List JournalRow)) (id : Nat)
    (huniq : (journalLookupRows journals id).length ≤ 1) :
    ((getCommit journals id).1 = true ↔
       ∃ t ∈ journals, ∃ r ∈ t, r.id = id ∧ r.hash ≠ "") ∧
    ((∀ t ∈ journals, ∀ r ∈ t, r.id ≠ id) →
       getCommit journals id = (false, "", "")) := by
  rcases h : journalLookupRows journals id with - | ⟨r, rest⟩
  · constructor
    · constructor
      · intro hfalse
        simp [getCommit, h] at hfalse
      · rintro ⟨t, ht, r, hr, hid, -⟩
        have hmem : r ∈ journalLookupRows journals id :=
          mem_journalLookupRows.mpr ⟨t, ht, hr, hid⟩
        rw [h] at hmem
        cases hmem
    · intro _
      simp [getCommit, h]
  · have hrest : rest = [] := by
      rw [h] at huniq
      simpa using huniq
    subst hrest
    have hmem : r ∈ journalLookupRows journals id := by
      rw [h]; exact List.mem_cons_self r []
    obtain ⟨t, ht, hrt, hrid⟩ := mem_journalLookupRows.mp hmem
    constructor
    · simp only [getCommit, h, bne_iff_ne, ne_eq]
      constructor
      · intro hne
        exact ⟨t, ht, r, hrt, hrid, hne⟩
      · rintro ⟨t2, ht2, r2, hr2t, hr2id, hr2hash⟩
        have hmem2 : r2 ∈ journalLookupRows journals id :=
          mem_journalLookupRows.mpr ⟨t2, ht2, hr2t, hr2id⟩
        rw [h] at hmem2
        have : r2 = r := by simpa using hmem2
        subst this
        exact hr2hash
    · intro hnone
      exact absurd hrid (hnone t ht r hrt)

/-- Witness for the amended C10 on a well-formed journal set. -/
theorem getCommit_found_iff_witness :
    (journalLookupRows journalsGood 2).length ≤ 1 ∧
    (((getCommit journalsGood 2).1 = true ↔
        ∃ t ∈ journalsGood, ∃ r ∈ t, r.id = 2 ∧ r.hash ≠ "") ∧
     ((∀ t ∈ journalsGood, ∀ r ∈ t, r.id ≠ 2) →
        getCommit journalsGood 2 = (false, "", ""))) :=
  ⟨by decide, getCommit_found_iff journalsGood 2 (by decide)⟩

/-- C3: when `commit()` returns the busy-snapshot conflict code the commit
lock stays held (no release happens); the subsequent `rollback()` releases
it exactly once.  When `commit()` succeeds instead, it releases the lock
itself and a `rollback()` after that successful commit performs no further
release. -/
theorem commit_conflict_lock_release (st : State)
    (h1 : st._insideTransaction = true) (h2 : st._uncommittedHash ≠ "")
    (h3 : st._mutexLocked = true) (h4 : st.commitLockHeld = true)
    (h5 : st._autoRolledBack = false) :
    (∃ st2, commit st true = some (SQLITE_BUSY_SNAPSHOT, st2) ∧
       st2.commitLockHeld = true ∧ st2._mutexLocked = true ∧
       st2.commitLockReleases = st.commitLockReleases ∧
       st2._insideTransaction = true ∧
       (rollback st2).commitLockReleases = st.commitLockReleases + 1 ∧
       (rollback st2).commitLockHeld = false ∧
       (rollback st2)._mutexLocked = false) ∧
    (∃ st3, commit st false = some (SQLITE_OK, st3) ∧
       st3.commitLockReleases = st.commitLockReleases + 1 ∧
       st3.commitLockHeld = false ∧ st3._insideTransaction = false ∧
       (rollback st3).commitLockReleases = st3.commitLockReleases ∧
       (rollback st3).commitLockHeld = st3.commitLockHeld) := by
  constructor
  · have hc : commit st true = some (SQLITE_BUSY_SNAPSHOT,
        { st with executedQueries := st.executedQueries ++ ["COMMIT"],
                  _enableCheckpointInterrupt := true }) := by
      simp [commit, h1, h2]
    refine ⟨_, hc, h4, h3, rfl, h1, ?_, ?_, ?_⟩ <;>
      simp [rollback, h1, h3, h5]
  · simp only [commit, h1, h2]
    simp [rollback]

/-- Witness for C3 at a concrete prepared state. -/
theorem commit_conflict_lock_release_witness :
    (preparedState._insideTransaction = true ∧
     preparedState._uncommittedHash ≠ "" ∧
     preparedState._mutexLocked = true ∧ preparedState.commitLockHeld = true) ∧
    ((∃ st2, commit preparedState true = some (SQLITE_BUSY_SNAPSHOT, st2) ∧
        st2.commitLockHeld = true ∧ st2._mutexLocked = true ∧
        st2.commitLockReleases = preparedState.commitLockReleases ∧
        st2._insideTransaction = true ∧
        (rollback st2).commitLockReleases = preparedState.commitLockReleases + 1 ∧
        (rollback st2).commitLockHeld = false ∧
        (rollback st2)._mutexLocked = false) ∧
     (∃ st3, commit preparedState false = some (SQLITE_OK, st3) ∧
        st3.commitLockReleases = preparedState.commitLockReleases + 1 ∧
        st3.commitLockHeld = false ∧ st3._insideTransaction = false ∧
        (rollback st3).commitLockReleases = st3.commitLockReleases ∧
        (rollback st3).commitLockHeld = st3.commitLockHeld)) :=
  ⟨⟨rfl, by decide, rfl, rfl⟩,
   commit_conflict_lock_release preparedState rfl (by decide) rfl rfl rfl⟩

/-- The interrupt check never touches the query cache. -/
theorem checkInterruptErrors_preserves_queryCache (st : State) (now : Nat) (ac : Bool) :
    ((_checkInterruptErrors st now ac).2)._queryCache = st._queryCache := by
  simp only [_checkInterruptErrors, resetTiming, apply_ite (Prod.snd : Option SQLiteError × State → State),
    apply_ite State._queryCache, ite_self]

/-- The tail of `_writeIdempotent` never touches the query cache. -/
theorem writeIdempotentTail_queryCache (st : State) (result usedRw : Bool) (q : String)
    (resp : WriteResp) (aK : Bool) (now : Nat) (ac : Bool)
    (out : Except SQLiteError Bool × State)
    (h : _writeIdempotentTail st result usedRw q resp aK now ac = some out) :
    out.2._queryCache = st._queryCache := by
  have hc := checkInterruptErrors_preserves_queryCache st now ac
  simp only [_writeIdempotentTail] at h
  rcases hE : (_checkInterruptErrors st now ac).1 with - | e
  · rw [hE] at h
    simp only [] at h
    split at h
    · cases h
      exact hc
    · split at h
      · cases h
        exact hc
      · cases h
        exact hc
  · rw [hE] at h
    simp only [] at h
    cases h
    exact hc

/-- C6: a cache hit in `read` returns true with the byte-identical cached
result, bumps `_queryCount` and `_cacheHits`, and leaves everything else
(in particular the engine log and the cache itself) unchanged; and the cache
is emptied by `_writeIdempotent`, by every successful `commit`, and by every
`rollback`, so an entry is only ever re-served until one of those runs. -/
theorem queryCache_lifecycle :
    (∀ st q r resp now ac, assocFind st._queryCache q = some r →
       read st q resp now ac =
         (Except.ok (true, r),
          { st with _queryCount := st._queryCount + 1,
                    _cacheHits := st._cacheHits + 1 })) ∧
    (∀ st q resp aK now ac out, _writeIdempotent st q resp aK now ac = some out →
       out.2._queryCache = []) ∧
    (∀ st st2, commit st false = some (SQLITE_OK, st2) → st2._queryCache = []) ∧
    (∀ st, (rollback st)._queryCache = []) := by
  refine ⟨?_, ?_, ?_, ?_⟩
  · intro st q r resp now ac h
    simp only [read]
    rw [h]
  · intro st q resp aK now ac out h
    simp only [_writeIdempotent] at h
    split at h
    · exact Option.noConfusion h
    · split at h
      · exact Option.noConfusion h
      · split at h
        · split at h
          · exact Option.noConfusion h
          · have := writeIdempotentTail_queryCache _ _ _ _ _ _ _ _ _ h
            simpa using this
        · have := writeIdempotentTail_queryCache _ _ _ _ _ _ _ _ _ h
          simpa using this
  · intro st st2 hc
    simp only [commit] at hc
    split at hc
    · exact Option.noConfusion hc
    · split at hc
      · exact Option.noConfusion hc
      · simp at hc
        subst hc
        rfl
  · intro st
    rfl

/-- Witness for C6: a concrete cache hit, and a rollback clearing the cache. -/
theorem queryCache_lifecycle_witness :
    assocFind cachedState._queryCache "SELECT 1;" = some [["1"]] ∧
    read cachedState "SELECT 1;" ⟨true, [], []⟩ 0 false =
      (Except.ok (true, [["1"]]),
       { cachedState with _queryCount := cachedState._queryCount + 1,
                          _cacheHits := cachedState._cacheHits + 1 }) ∧
    (rollback cachedState)._queryCache = [] :=
  ⟨rfl,
   queryCache_lifecycle.1 cachedState "SELECT 1;" [["1"]] ⟨true, [], []⟩ 0 false rfl,
   queryCache_lifecycle.2.2.2 cachedState⟩

/-- With rewriting disabled, the authorizer's verdict is the whitelist
verdict (or `SQLITE_OK` when no whitelist is configured). -/
theorem authorize_verdict (st : State) (hrw : st._enableRewrite = false)
    (actionCode : Nat) (d1 d2 : Option String) :
    (_authorize st actionCode d1 d2).1 =
      match st.whitelist with
      | none => SQLITE_OK
      | some wl => whitelistVerdict wl actionCode d1 d2 := by
  rcases hw : st.whitelist with - | wl <;> rcases d2 with - | name <;>
    simp [_authorize, hrw, hw, apply_ite State.whitelist]

/-- C8: with a whitelist configured (and no rewrite pending) the authorizer
denies every mutation/DDL action, allows SELECT, ANALYZE and FUNCTION,
allows PRAGMA only for `schema_version` (case-insensitively) with no value,
answers READ with OK exactly when `whitelist[table][column]` exists and
IGNORE otherwise, and denies any other action; with no whitelist it always
returns OK. -/
theorem authorize_whitelist_policy (st : State) (hrw : st._enableRewrite = false) :
    (∀ wl, st.whitelist = some wl →
      (∀ code ∈ alwaysDeniedActionCodes, ∀ d1 d2,
         (_authorize st code d1 d2).1 = SQLITE_DENY) ∧
      (∀ d1 d2, (_authorize st SQLITE_SELECT d1 d2).1 = SQLITE_OK) ∧
      (∀ d1 d2, (_authorize st SQLITE_ANALYZE d1 d2).1 = SQLITE_OK) ∧
      (∀ d1 d2, (_authorize st SQLITE_FUNCTION d1 d2).1 = SQLITE_OK) ∧
      (∀ name, (_authorize st SQLITE_PRAGMA (some name) none).1 =
         (if SToLower name = "schema_version" then SQLITE_OK else SQLITE_DENY)) ∧
      (∀ name v, (_authorize st SQLITE_PRAGMA (some name) (some v)).1 = SQLITE_DENY) ∧
      (∀ tbl col,
         ((_authorize st SQLITE_READ (some tbl) (some col)).1 = SQLITE_OK ↔
            ∃ columns, assocFind wl tbl = some columns ∧ col ∈ columns) ∧
         ((_authorize st SQLITE_READ (some tbl) (some col)).1 = SQLITE_OK ∨
          (_authorize st SQLITE_READ (some tbl) (some col)).1 = SQLITE_IGNORE)) ∧
      (∀ code, code ∉ alwaysDeniedActionCodes →
         code ≠ SQLITE_SELECT → code ≠ SQLITE_ANALYZE → code ≠ SQLITE_FUNCTION →
         code ≠ SQLITE_PRAGMA → code ≠ SQLITE_READ →
         ∀ d1 d2, (_authorize st code d1 d2).1 = SQLITE_DENY)) ∧
    (st.whitelist = none →
      ∀ code d1 d2, (_authorize st code d1 d2).1 = SQLITE_OK) := by
  constructor
  · intro wl hwl
    refine ⟨?_, ?_, ?_, ?_, ?_, ?_, ?_, ?_⟩
    · intro code hc d1 d2
      rw [authorize_verdict st hrw code d1 d2, hwl]
      show whitelistVerdict wl code d1 d2 = SQLITE_DENY
      unfold whitelistVerdict
      rw [if_pos hc]
    · intro d1 d2
      rw [authorize_verdict st hrw _ d1 d2, hwl]
      show whitelistVerdict wl SQLITE_SELECT d1 d2 = SQLITE_OK
      unfold whitelistVerdict
      rw [if_neg (by decide), if_pos (Or.inl rfl)]
    · intro d1 d2
      rw [authorize_verdict st hrw _ d1 d2, hwl]
      show whitelistVerdict wl SQLITE_ANALYZE d1 d2 = SQLITE_OK
      unfold whitelistVerdict
      rw [if_neg (by decide), if_pos (Or.inr (Or.inl rfl))]
    · intro d1 d2
      rw [authorize_verdict st hrw _ d1 d2, hwl]
      show whitelistVerdict wl SQLITE_FUNCTION d1 d2 = SQLITE_OK
      unfold whitelistVerdict
      rw [if_neg (by decide), if_pos (Or.inr (Or.inr rfl))]
    · intro name
      rw [authorize_verdict st hrw _ _ _, hwl]
      show whitelistVerdict wl SQLITE_PRAGMA (some name) none = _
      unfold whitelistVerdict
      rw [if_neg (by decide), if_neg (by decide), if_pos rfl]
      simp
    · intro name v
      rw [authorize_verdict st hrw _ _ _, hwl]
      show whitelistVerdict wl SQLITE_PRAGMA (some name) (some v) = SQLITE_DENY
      unfold whitelistVerdict
      rw [if_neg (by decide), if_neg (by decide), if_pos rfl]
      simp
    · intro tbl col
      have hv2 : (_authorize st SQLITE_READ (some tbl) (some col)).1 =
          (match assocFind wl tbl with
           | some columns => if col ∈ columns then SQLITE_OK else SQLITE_IGNORE
           | none => SQLITE_IGNORE) := by
        rw [authorize_verdict st hrw _ _ _, hwl]
        show whitelistVerdict wl SQLITE_READ (some tbl) (some col) = _
        unfold whitelistVerdict
        rw [if_neg (by decide), if_neg (by decide), if_neg (by decide), if_pos rfl]
        simp
      rw [hv2]
      rcases hf : assocFind wl tbl with - | cols
      · simp [SQLITE_OK, SQLITE_IGNORE]
      · by_cases hcol : col ∈ cols <;> simp [hcol, SQLITE_OK, SQLITE_IGNORE]
    · intro code hden hsel hana hfun hpragma hread d1 d2
      rw [authorize_verdict st hrw _ _ _, hwl]
      show whitelistVerdict wl code d1 d2 = SQLITE_DENY
      unfold whitelistVerdict
      rw [if_neg hden, if_neg (by simp [hsel, hana, hfun]), if_neg hpragma, if_neg hread]
  · intro hnone code d1 d2
    rw [authorize_verdict st hrw _ _ _, hnone]

/-- Witness for C8: concrete verdicts under a one-entry whitelist, and the
always-OK behaviour with no whitelist. -/
theorem authorize_whitelist_policy_witness :
    wlState._enableRewrite = false ∧ wlState.whitelist = some [("tbl", ["col"])] ∧
    (_authorize wlState SQLITE_DELETE none none).1 = SQLITE_DENY ∧
    (_authorize wlState SQLITE_READ (some "tbl") (some "col")).1 = SQLITE_OK ∧
    (_authorize initialState SQLITE_INSERT none none).1 = SQLITE_OK :=
  ⟨rfl, rfl,
   ((authorize_whitelist_policy wlState rfl).1 [("tbl", ["col"])] rfl).1
     SQLITE_DELETE (by decide) none none,
   (((authorize_whitelist_policy wlState rfl).1 [("tbl", ["col"])] rfl).2.2.2.2.2.2.1
     "tbl" "col").1.mpr ⟨["col"], rfl, by decide⟩,
   (authorize_whitelist_policy initialState rfl).2 rfl SQLITE_INSERT none none⟩

/-- The authorizer either leaves the state unchanged, clears only the
determinism flag, or stores only a rewritten query. -/
theorem authorize_snd_cases (st : State) (c : Nat) (d1 d2 : Option String) :
    (_authorize st c d1 d2).2 = st ∨
    (_authorize st c d1 d2).2 = { st with _isDeterministicQuery := false } ∨
    (∃ rq, (_authorize st c d1 d2).2 = { st with _rewrittenQuery := rq }) := by
  unfold _authorize
  split
  · exact Or.inr (Or.inr ⟨_, rfl⟩)
  · have hcases : ∀ st1 : State,
        (match st1.whitelist with
         | none => (SQLITE_OK, st1)
         | some wl => (whitelistVerdict wl c d1 d2, st1)).2 = st1 := by
      intro st1
      cases st1.whitelist <;> rfl
    split
    · split
      · split
        · exact Or.inr (Or.inl (hcases _))
        · exact Or.inl (hcases _)
      · exact Or.inl (hcases _)
    · exact Or.inl (hcases _)

/-- The authorizer never touches the query cache. -/
theorem authorize_preserves_queryCache (st : State) (c : Nat) (d1 d2 : Option String) :
    ((_authorize st c d1 d2).2)._queryCache = st._queryCache := by
  rcases authorize_snd_cases st c d1 d2 with h | h | ⟨rq, h⟩ <;> rw [h]

/-- The authorizer never changes `_enableRewrite`. -/
theorem authorize_preserves_enableRewrite (st : State) (c : Nat) (d1 d2 : Option String) :
    ((_authorize st c d1 d2).2)._enableRewrite = st._enableRewrite := by
  rcases authorize_snd_cases st c d1 d2 with h | h | ⟨rq, h⟩ <;> rw [h]

/-- Once cleared, the determinism flag stays cleared through the authorizer. -/
theorem authorize_det_mono (st : State) (c : Nat) (d1 d2 : Option String)
    (h : st._isDeterministicQuery = false) :
    ((_authorize st c d1 d2).2)._isDeterministicQuery = false := by
  rcases authorize_snd_cases st c d1 d2 with h1 | h1 | ⟨rq, h1⟩ <;> rw [h1] <;>
    simpa using h

/-- A FUNCTION action naming a listed non-deterministic function clears the
determinism flag (when no rewrite fires). -/
theorem authorize_det_clear (st : State) (d1 : Option String) (n : String)
    (hrw : st._enableRewrite = false) (hn : n ∈ nonDeterministicFunctions) :
    ((_authorize st SQLITE_FUNCTION d1 (some n)).2)._isDeterministicQuery = false := by
  rcases hw : st.whitelist with - | wl <;>
    simp [_authorize, hrw, hn, hw, apply_ite State.whitelist]

/-- Unfolding one authorizer callback from the trace. -/
theorem authFold_cons (e : AuthEvent) (rest : List AuthEvent) (st : State) :
    authFold (e :: rest) st =
      authFold rest ((_authorize st e.actionCode e.detail1 e.detail2).2) := rfl

/-- The authorizer trace never touches the query cache. -/
theorem authFold_queryCache (evts : List AuthEvent) :
    ∀ st : State, (authFold evts st)._queryCache = st._queryCache := by
  induction evts with
  | nil => intro st; rfl
  | cons e rest ih =>
    intro st
    rw [authFold_cons]
    exact (ih _).trans (authorize_preserves_queryCache st _ _ _)

/-- The authorizer trace never changes `_enableRewrite`. -/
theorem authFold_enableRewrite (evts : List AuthEvent) :
    ∀ st : State, (authFold evts st)._enableRewrite = st._enableRewrite := by
  induction evts with
  | nil => intro st; rfl
  | cons e rest ih =>
    intro st
    rw [authFold_cons]
    exact (ih _).trans (authorize_preserves_enableRewrite st _ _ _)

/-- Once cleared, the determinism flag stays cleared through a trace. -/
theorem authFold_det_false (evts : List AuthEvent) :
    ∀ st : State, st._isDeterministicQuery = false →
      (authFold evts st)._isDeterministicQuery = false := by
  induction evts with
  | nil => intro st h; exact h
  | cons e rest ih =>
    intro st h
    rw [authFold_cons]
    exact ih _ (authorize_det_mono st _ _ _ h)

/-- A trace containing a FUNCTION action with a listed non-deterministic
name leaves the determinism flag cleared (when no rewrite fires). -/
theorem authFold_det_clear (evts : List AuthEvent) :
    ∀ st : State, st._enableRewrite = false →
      (∃ e ∈ evts, e.actionCode = SQLITE_FUNCTION ∧
        ∃ n, e.detail2 = some n ∧ n ∈ nonDeterministicFunctions) →
      (authFold evts st)._isDeterministicQuery = false := by
  induction evts with
  | nil =>
    intro st hrw hevt
    obtain ⟨e, he, -⟩ := hevt
    exact absurd he (List.not_mem_nil e)
  | cons e rest ih =>
    intro st hrw hevt
    obtain ⟨e2, he2, hcode, n, hd2, hn⟩ := hevt
    rcases List.mem_cons.mp he2 with rfl | hmem
    · rw [authFold_cons]
      apply authFold_det_false
      rw [hcode, hd2]
      exact authorize_det_clear st e2.detail1 n hrw hn
    · rw [authFold_cons]
      apply ih
      · rw [authorize_preserves_enableRewrite]
        exact hrw
      · exact ⟨e2, hmem, hcode, n, hd2, hn⟩

/-- C4 amended: a `read` whose engine execution makes the authorizer observe
a FUNCTION action whose name is in the non-deterministic set actually
checked by the code (`random`, `date`, `time`, `datetime`, `julianday`,
`strftime`, `changes`, `last_insert_rowid`, `sqlite3_version`) does not
insert anything into the query cache: the cache is unchanged. -/
theorem read_nondeterministic_function_not_cached (st : State) (q : String)
    (resp : ReadResp) (now : Nat) (ac : Bool)
    (hrw : st._enableRewrite = false)
    (hmiss : assocFind st._queryCache q = none)
    (hevt : ∃ e ∈ resp.authEvents, e.actionCode = SQLITE_FUNCTION ∧
            ∃ n, e.detail2 = some n ∧ n ∈ nonDeterministicFunctions) :
    ((read st q resp now ac).2)._queryCache = st._queryCache := by
  simp only [read]
  rw [hmiss]
  have hdet : (authFold resp.authEvents
      { st with _queryCount := st._queryCount + 1, _isDeterministicQuery := true,
                executedQueries := st.executedQueries ++ [q] })._isDeterministicQuery
      = false := by
    apply authFold_det_clear resp.authEvents _ _ hevt
    exact hrw
  rw [hdet]
  simp only [Bool.false_and, Bool.false_eq_true, if_false]
  rcases hE : (_checkInterruptErrors (authFold resp.authEvents
      { st with _queryCount := st._queryCount + 1, _isDeterministicQuery := true,
                executedQueries := st.executedQueries ++ [q] }) now ac).1 with - | e <;>
    dsimp only <;>
    rw [checkInterruptErrors_preserves_queryCache, authFold_queryCache]

/-- C4 counterexample: the source compares the FUNCTION name against
`"sqlite3_version"`, not `"sqlite_version"`, so a read invoking the SQL
function `sqlite_version()` (authorizer FUNCTION name `sqlite_version`) IS
inserted into the query cache, contradicting the claim. -/
theorem read_sqlite_version_is_cached :
    respVersion.authEvents = [⟨SQLITE_FUNCTION, none, some "sqlite_version"⟩] ∧
    "sqlite_version" ∉ nonDeterministicFunctions ∧
    assocFind ((read initialState "SELECT sqlite_version();" respVersion 0 false).2)._queryCache
      "SELECT sqlite_version();" = some [["3"]] := by
  refine ⟨rfl, by decide, ?_⟩
  rfl

/-- Witness for the amended C4 with the `random()` function. -/
theorem read_nondeterministic_function_not_cached_witness :
    initialState._enableRewrite = false ∧
    assocFind initialState._queryCache "SELECT random();" = none ∧
    ((read initialState "SELECT random();" respRandom 0 false).2)._queryCache =
      initialState._queryCache :=
  ⟨rfl, rfl,
   read_nondeterministic_function_not_cached initialState "SELECT random();" respRandom
     0 false rfl rfl
     ⟨⟨SQLITE_FUNCTION, none, some "random"⟩, List.mem_cons_self _ _, rfl, "random", rfl,
      by decide⟩⟩

/-- Moving a prepared transaction to the committed map does not change the
commit count. -/
@[simp] theorem commitTransactionInfo_commitCount (st : State) (cid : Nat) :
    (commitTransactionInfo st cid).commitCount = st.commitCount := by
  unfold commitTransactionInfo
  split <;> rfl

/-- Moving a prepared transaction to the committed map keeps the timeout limit. -/
@[simp] theorem commitTransactionInfo_timeoutLimit (st : State) (cid : Nat) :
    (commitTransactionInfo st cid)._timeoutLimit = st._timeoutLimit := by
  unfold commitTransactionInfo
  split <;> rfl

/-- Moving a prepared transaction to the committed map keeps the timeout error. -/
@[simp] theorem commitTransactionInfo_timeoutError (st : State) (cid : Nat) :
    (commitTransactionInfo st cid)._timeoutError = st._timeoutError := by
  unfold commitTransactionInfo
  split <;> rfl

/-- Moving a prepared transaction to the committed map keeps the abandon flag. -/
@[simp] theorem commitTransactionInfo_abandon (st : State) (cid : Nat) :
    (commitTransactionInfo st cid)._abandonForCheckpoint = st._abandonForCheckpoint := by
  unfold commitTransactionInfo
  split <;> rfl

/-- Moving a prepared transaction to the committed map keeps the rewrite flag. -/
@[simp] theorem commitTransactionInfo_enableRewrite (st : State) (cid : Nat) :
    (commitTransactionInfo st cid)._enableRewrite = st._enableRewrite := by
  unfold commitTransactionInfo
  split <;> rfl

/-- One whole successful transaction advances the commit count by exactly
one and chains the hash. -/
theorem commitQuery_spec (H : String → String) (hH : ∀ s, H s ≠ "") (st : State)
    (q : String) (hst : ReadyState st) (hq : q = "" ∨ SEndsWith q ";" = true) :
    ∃ st2, commitQuery H st q = some st2 ∧ ReadyState st2 ∧
      st2.commitCount = st.commitCount + 1 ∧
      st2.lastCommittedHash = H (st.lastCommittedHash ++ q) := by
  obtain ⟨h1, h2, h3, h4, h5, h6, h7, h8⟩ := hst
  have hsemi : (q == "" || SEndsWith q ";") = true := by
    rcases hq with hq | hq
    · subst hq; rfl
    · rw [hq, Bool.or_true]
  simp [commitQuery, beginTransaction, _writeIdempotent, _writeIdempotentTail,
    _checkInterruptErrors, resetTiming, prepare, prepareTransactionInfo, commit,
    incrementCommit, okWriteResp, ReadyState, SQLITE_OK,
    h1, h2, h3, h4, h5, h6, h7, h8, hsemi, hH]

/-- A sequence of successful commits advances the commit count by its length
and folds the hash chain over the queries. -/
theorem runCommits_spec (H : String → String) (hH : ∀ s, H s ≠ "") :
    ∀ (qs : List String), (∀ q ∈ qs, q = "" ∨ SEndsWith q ";" = true) →
    ∀ st : State, ReadyState st →
    ∃ st2, runCommits H st qs = some st2 ∧ ReadyState st2 ∧
      st2.commitCount = st.commitCount + qs.length ∧
      st2.lastCommittedHash =
        qs.foldl (fun acc q => H (acc ++ q)) st.lastCommittedHash := by
  intro qs
  induction qs with
  | nil =>
    intro _ st hst
    exact ⟨st, rfl, hst, rfl, rfl⟩
  | cons q rest ih =>
    intro hq st hst
    obtain ⟨stA, hcq, hreadyA, hcountA, hhashA⟩ :=
      commitQuery_spec H hH st q hst (hq q (List.mem_cons_self q rest))
    obtain ⟨stB, hrun, hreadyB, hcountB, hhashB⟩ :=
      ih (fun x hx => hq x (List.mem_cons_of_mem q hx)) stA hreadyA
    refine ⟨stB, ?_, hreadyB, ?_, ?_⟩
    · simp only [runCommits, hcq, hrun]
    · rw [hcountB, hcountA, List.length_cons]
      omega
    · rw [List.foldl_cons, hhashB, hhashA]

/-- C1: `prepare()` inserts the row
`(commitCount+1, uncommittedQuery, H(lastCommittedHash ++ uncommittedQuery))`
into the connection's journal table and records that hash as the uncommitted
hash; a successful `commit()` increments the shared commit count by exactly
one and publishes the uncommitted hash as `lastCommittedHash`; consequently
a sequence of n successful commits with queries `q1..qn` starting from the
empty hash yields `commitCount = n` and the chained hash
`hash(k) = H(hash(k-1) ++ qk)` with `hash(0) = ""`. -/
theorem journal_hash_chain (H : String → String) (hH : ∀ s, H s ≠ "") :
    (∀ st : State, st._insideTransaction = true →
       ∀ b st2, prepare H st true = some (b, st2) →
         b = true ∧
         (⟨st.commitCount + 1, st._uncommittedQuery,
            H (st.lastCommittedHash ++ st._uncommittedQuery)⟩ : JournalRow) ∈ st2.journal ∧
         st2._uncommittedHash = H (st.lastCommittedHash ++ st._uncommittedQuery)) ∧
    (∀ st : State, st._insideTransaction = true → st._uncommittedHash ≠ "" →
       ∃ st2, commit st false = some (SQLITE_OK, st2) ∧
         st2.commitCount = st.commitCount + 1 ∧
         st2.lastCommittedHash = st._uncommittedHash) ∧
    (∀ qs : List String, (∀ q ∈ qs, q = "" ∨ SEndsWith q ";" = true) →
       ∃ st2, runCommits H initialState qs = some st2 ∧
         st2.commitCount = qs.length ∧
         st2.lastCommittedHash = hashChain H qs) ∧
    (∀ (qs : List String) (k : Nat), k < qs.length →
       hashChain H (qs.take (k + 1)) =
         H (hashChain H (qs.take k) ++ qs.getD k "")) := by
  refine ⟨?_, ?_, ?_, ?_⟩
  · intro st hin b st2 hprep
    by_cases hm : st._mutexLocked <;>
      simp only [prepare, hin, prepareTransactionInfo, hm, Bool.not_true, Bool.not_false,
        if_true, if_false, Bool.false_eq_true, if_neg, ite_true, ite_false,
        Option.some.injEq, Prod.mk.injEq] at hprep <;>
      obtain ⟨hb, hst2⟩ := hprep <;>
      subst hst2 <;>
      exact ⟨hb.symm, List.mem_append_right _ (List.mem_singleton_self _), rfl⟩
  · intro st hin hhash
    simp [commit, hin, hhash, incrementCommit]
  · intro qs hq
    obtain ⟨st2, hrun, -, hcount, hhash⟩ :=
      runCommits_spec H hH qs hq initialState
        ⟨rfl, rfl, rfl, rfl, rfl, rfl, rfl, rfl⟩
    exact ⟨st2, hrun, by simpa [initialState] using hcount, hhash⟩
  · intro qs k hk
    have hget : qs[k]? = some (qs.getD k "") := by
      cases hx : qs[k]? with
      | none =>
        exact absurd (List.getElem?_eq_none_iff.mp hx) (by omega)
      | some x =>
        simp [List.getD_eq_getElem?_getD, hx]
    have htake : qs.take (k + 1) = qs.take k ++ [qs.getD k ""] := by
      rw [List.take_succ, hget]
      rfl
    rw [htake, hashChain, hashChain, List.foldl_append]
    simp

/-- The concrete witness hash function never returns the empty string. -/
theorem constHash_ne_empty (s : String) : constHash s ≠ "" := by
  show "x" ≠ ""
  decide

/-- Witness for C1: two successful commits from a fresh state chain the hash
and set the commit count to 2. -/
theorem journal_hash_chain_witness :
    (∀ s, constHash s ≠ "") ∧
    (∃ st2, runCommits constHash initialState
        ["INSERT INTO t VALUES (1);", "DELETE FROM t;"] = some st2 ∧
       st2.commitCount = 2 ∧
       st2.lastCommittedHash =
         hashChain constHash ["INSERT INTO t VALUES (1);", "DELETE FROM t;"]) :=
  ⟨constHash_ne_empty,
   (journal_hash_chain constHash constHash_ne_empty).2.2.1
     ["INSERT INTO t VALUES (1);", "DELETE FROM t;"] (by decide)⟩

end SQLite
